import Mathlib

/-
Verification of the Semtech SX126x LoRa radio driver core
(embassy-lora, `src/sx126x/mod.rs` and `src/sx126x/sx126x_lora/subroutine.rs`).

The subroutine layer is embedded shallowly: pure helper functions become Lean
functions on `Nat`/`Int` (u8/u16/u32 arithmetic is modelled with explicit
`% 2^k` wrapping where the Rust types wrap), and the stateful, fallible
command-issuing subroutines become functions in a state/error monad `M` over
an explicit driver state, a trace of successfully issued bus actions, and an
environment that decides which bus transactions succeed and what bytes reads
return.  The SPI/board transport (`brd_*`) itself is not part of the analysed
sources; it is modelled from the specification (section 4.B) as a primitive
that either issues one action or fails.
-/

set_option maxRecDepth 10000

deriving instance DecidableEq for Except

namespace Sx126x

/-! ## Constants (from `subroutine.rs`) -/

/-- Internal frequency of the radio. -/
def SX126X_XTAL_FREQ : Nat := 32000000

/-- Scaling factor used to perform fixed-point operations. -/
def SX126X_PLL_STEP_SHIFT_AMOUNT : Nat := 14

/-- PLL step, scaled with `SX126X_PLL_STEP_SHIFT_AMOUNT`:
`SX126X_XTAL_FREQ >> (25 - SX126X_PLL_STEP_SHIFT_AMOUNT)`. -/
def SX126X_PLL_STEP_SCALED : Nat := SX126X_XTAL_FREQ >>> (25 - SX126X_PLL_STEP_SHIFT_AMOUNT)

/-- Maximum value for parameter symbNum. -/
def SX126X_MAX_LORA_SYMB_NUM_TIMEOUT : Nat := 248

/-- Modulus of Rust `u32` arithmetic. -/
def U32_MOD : Nat := 2 ^ 32

/-! ## Pure helper functions (from `subroutine.rs`) -/

/-- The `convert_freq_in_hz_to_pll_step` with the `u32` wrapping of the source made
explicit: every arithmetic step is reduced `% 2^32` exactly where the Rust
`u32` operations wrap. -/
def convert_freq_in_hz_to_pll_step (freq_in_hz : Nat) : Nat :=
  let steps_int := freq_in_hz / SX126X_PLL_STEP_SCALED
  let steps_frac := freq_in_hz - steps_int * SX126X_PLL_STEP_SCALED
  ((steps_int <<< SX126X_PLL_STEP_SHIFT_AMOUNT) % U32_MOD
      + ((steps_frac <<< SX126X_PLL_STEP_SHIFT_AMOUNT) % U32_MOD + SX126X_PLL_STEP_SCALED / 2)
          % U32_MOD / SX126X_PLL_STEP_SCALED)
    % U32_MOD

/-- The same computation carried out in unbounded natural-number arithmetic:
agreement with `convert_freq_in_hz_to_pll_step` expresses that the `u32`
computation does not overflow. -/
def convert_freq_in_hz_to_pll_step_exact (freq_in_hz : Nat) : Nat :=
  let steps_int := freq_in_hz / SX126X_PLL_STEP_SCALED
  let steps_frac := freq_in_hz - steps_int * SX126X_PLL_STEP_SCALED
  steps_int * 2 ^ SX126X_PLL_STEP_SHIFT_AMOUNT
    + (steps_frac * 2 ^ SX126X_PLL_STEP_SHIFT_AMOUNT + SX126X_PLL_STEP_SCALED / 2)
        / SX126X_PLL_STEP_SCALED

/-- Round-to-nearest division on naturals (ties round up):
`roundDiv n d = round (n / d)`. -/
def roundDiv (n d : Nat) : Nat := (2 * n + d) / (2 * d)

/-- The `timeout_1`: high byte of a 24-bit timeout. -/
def timeout_1 (timeout : Nat) : Nat := (timeout >>> 16) &&& 0xFF

/-- The `timeout_2`: middle byte of a 24-bit timeout. -/
def timeout_2 (timeout : Nat) : Nat := (timeout >>> 8) &&& 0xFF

/-- The `timeout_3`: low byte of a 24-bit timeout. -/
def timeout_3 (timeout : Nat) : Nat := timeout &&& 0xFF

/-- The `convert_u8_buffer_to_u32`: assemble four bytes big-endian. -/
def convert_u8_buffer_to_u32 (b0 b1 b2 b3 : Nat) : Nat :=
  (b0 <<< 24) ||| (b1 <<< 16) ||| (b2 <<< 8) ||| b3

/-- Bitwise complement on one byte (`!x` at type `u8`). -/
def not8 (x : Nat) : Nat := x ^^^ 0xFF

/-- The `while mant > 31 { mant = (mant + 3) >> 2; exp += 1 }` loop of
`sub_set_lora_symb_num_timeout`, written with explicit fuel so that it is
structurally recursive (and hence kernel-evaluable).  `symbTimeoutLoop_stable`
below shows that with fuel `≥ mant` the fuel never runs out, i.e. this is the
exact while-loop semantics. -/
def symbTimeoutLoop : Nat → Nat → Nat → Nat × Nat
  | 0, mant, exp => (mant, exp)
  | fuel + 1, mant, exp =>
    if mant > 31 then symbTimeoutLoop fuel ((mant + 3) >>> 2) (exp + 1) else (mant, exp)

/-- The mantissa/exponent pair `(mant, exp)` computed by
`sub_set_lora_symb_num_timeout symb_num`. -/
def symbTimeoutEncode (symb_num : Nat) : Nat × Nat :=
  let mant := ((min symb_num SX126X_MAX_LORA_SYMB_NUM_TIMEOUT) + 1) >>> 1
  symbTimeoutLoop mant mant 0

/-- Calibration band bytes chosen by `sub_calibrate_image` (the source
initialises the two bytes to `0x00` and overwrites them in an if/else-if
chain with no final else). -/
def cal_band_bytes (freq : Nat) : List Nat :=
  if freq > 900000000 then [0xE1, 0xE9]
  else if freq > 850000000 then [0xD7, 0xDB]
  else if freq > 770000000 then [0xC1, 0xC5]
  else if freq > 460000000 then [0x75, 0x81]
  else if freq > 425000000 then [0x6B, 0x6F]
  else [0x00, 0x00]

/-- Reinterpret a byte as a signed 8-bit integer (`as i8`). -/
def toI8 (b : Nat) : Int := if b % 256 < 128 then (b % 256 : Int) else (b % 256 : Int) - 256

/-- Wrap an integer into signed 8-bit range (Rust release-mode `i8` wrapping). -/
def wrap8 (x : Int) : Int := (x + 128) % 256 - 128

/-- Arithmetic shift right on a signed integer: Rust `>> n` on `i32`/`i8`
is floor division by `2^n`.  (Lean's `Int` division `/` is floor division
for a positive divisor.) -/
def asr (x : Int) (n : Nat) : Int := x / (2 ^ n : Nat)

/-! ## Radio data model (from `mod_params` as used by `subroutine.rs` and §3 of the spec) -/

/-- Radio operating modes. -/
inductive RadioMode where
  | Sleep | StandbyRC | StandbyXOSC | FrequencySynthesis
  | Transmit | Receive | ReceiveDutyCycle | ChannelActivityDetection
deriving DecidableEq

/-- Standby mode selector. -/
inductive StandbyMode where
  | RC | XOSC
deriving DecidableEq

/-- Modelled from the spec: `StandbyMode::value()` yields the chip-encoded byte
(`SetStandby(0x00)` selects Standby RC per scenario S1); `mod_params.rs` is not
among the analysed sources. -/
def StandbyMode.value : StandbyMode → Nat
  | .RC => 0x00
  | .XOSC => 0x01

/-- Radio packet type. -/
inductive PacketType where
  | GFSK | LoRa
deriving DecidableEq

/-- Modelled from the spec: `SleepParams` is a bitfield struct with a `value()`
accessor yielding the chip-encoded byte; only `warm_start` is relevant here
(`mod_params.rs` is not among the analysed sources). -/
structure SleepParams where
  warm_start : Bool
deriving DecidableEq

/-- Modelled from the spec: chip-encoded sleep-config byte. -/
def SleepParams.value (p : SleepParams) : Nat := if p.warm_start then 0x04 else 0x00

/-- Modelled from the spec: `CADSymbols` is a small enum with a `value()`
accessor yielding the chip-encoded byte (`mod_params.rs` is not among the
analysed sources); modelled as the byte it encodes to. -/
structure CADSymbols where
  value : Nat
deriving DecidableEq

/-- Modelled from the spec: `CADExitMode` is a small enum with a `value()`
accessor yielding the chip-encoded byte (`mod_params.rs` is not among the
analysed sources); modelled as the byte it encodes to. -/
structure CADExitMode where
  value : Nat
deriving DecidableEq

/-- Packet parameters (spec §3). -/
structure PacketParams where
  preamble_length : Nat
  implicit_header : Bool
  payload_length : Nat
  crc_on : Bool
  iq_inverted : Bool
deriving DecidableEq

/-- Packet status decoded by `sub_get_packet_status`. -/
structure PacketStatus where
  rssi : Int
  snr : Int
  signal_rssi : Int
  freq_error : Int
deriving DecidableEq

/-- Register addresses used by the subroutine layer (addresses themselves are
in the absent `mod_params.rs`; the registers are identified by name). -/
inductive Register where
  | AnaLNA | AnaMixer | GeneratedRandomNumber | RxGain
  | SynchTimeout | PayloadLength | TxClampCfg
deriving DecidableEq

/-- Command opcodes used by the subroutine layer (identified by name). -/
inductive OpCode where
  | SetSleep | SetStandby | SetFS | SetTx | SetRx | SetRxDutyCycle | SetCAD
  | SetTxContinuousWave | SetTxContinuousPremable | SetStopRxTimerOnPreamble
  | SetLoRaSymbTimeout | SetRegulatorMode | Calibrate | CalibrateImage
  | SetPAConfig | SetTxFallbackMode | CfgDIOIrq | GetIrqStatus
  | SetRFSwitchMode | SetTCXOMode | SetRFFrequency | SetPacketType
  | SetTxParams | SetModulationParams | SetPacketParams | SetCADParams
  | SetBufferBaseAddress | GetStatus | GetRSSIInst | GetRxBufferStatus
  | GetPacketStatus | GetErrors | ClrErrors | ClrIrqStatus
deriving DecidableEq

/-- One successfully issued bus/board action, as recorded in the trace. -/
inductive Action where
  | writeCommand (op : OpCode) (payload : List Nat)
  | readCommand (op : OpCode) (len : Nat)
  | writeRegisters (r : Register) (bytes : List Nat)
  | readRegisters (r : Register) (len : Nat)
  | writeBuffer (offset : Nat) (payload : List Nat)
  | readBuffer (offset : Nat) (len : Nat)
  | antSleep | antTx | antRx
deriving DecidableEq

/-- Error taxonomy (`RadioError`, spec §7; the `BUS`/pin error payloads are
irrelevant to the claims and dropped). -/
inductive RadioError where
  | SPI | DigitalOut | Dio1Wait | BusyWait
  | PacketParamsMissing | ModulationParamsMissing
  | PayloadSizeMismatch (got cap : Nat)
  | ReceiveTimeout | TransmitTimeout | ReceiveCrc | HeaderInvalid
deriving DecidableEq

/-- Error raised when an action fails: GPIO (antenna) failures surface as
`DigitalOut`, SPI transactions as `SPI` (spec §4.A/§4.B). -/
def Action.failError : Action → RadioError
  | .antSleep | .antTx | .antRx => .DigitalOut
  | _ => .SPI

/-- Driver-owned state (the fields of `LoRa` used by the analysed subroutines). -/
structure DriverState where
  operating_mode : RadioMode
  image_calibrated : Bool
  packet_type : PacketType
  packet_params : Option PacketParams
  frequency_error : Int
deriving DecidableEq

/-- State threaded through a run: driver state, the trace of successfully
issued actions, and how many bus transactions have been attempted. -/
structure RunState where
  driver : DriverState
  trace : List Action
  steps : Nat
deriving DecidableEq

/-- The environment decides whether the `n`-th attempted bus transaction
succeeds and which bytes it returns when it is a read. -/
structure Env where
  busOk : Nat → Bool
  readData : Nat → List Nat

/-- Driver computations: given an environment and a run state, produce a
result (or a `RadioError`) and the final run state.  The state survives an
error, mirroring the Rust `?`-propagation which leaves `self` intact. -/
def M (α : Type) : Type := Env → RunState → Except RadioError α × RunState

instance instMonadM : Monad M where
  pure a := fun _ s => (Except.ok a, s)
  bind m f := fun env s =>
    match m env s with
    | (Except.ok a, s') => f a env s'
    | (Except.error e, s') => (Except.error e, s')

/-- Fail with the given error. -/
def throwM {α : Type} (e : RadioError) : M α := fun _ s => (Except.error e, s)

/-- Coerce the environment's read bytes to exactly `len` bytes (an SPI read
always transfers exactly the requested number of bytes, each one byte). -/
def fillBytes (len : Nat) (l : List Nat) : List Nat :=
  (l.map (· % 256) ++ List.replicate len 0).take len

/-- Modelled from the spec (§4.A/§4.B): attempt one bus/board action.  If the
environment lets the transaction succeed, the action is appended to the trace
and the environment's bytes are returned; otherwise the corresponding error is
raised.  Either way the transaction counter advances. -/
def busAction (a : Action) : M (List Nat) := fun env s =>
  if env.busOk s.steps then
    (Except.ok (env.readData s.steps), { s with steps := s.steps + 1, trace := s.trace ++ [a] })
  else
    (Except.error a.failError, { s with steps := s.steps + 1 })

/-- Modelled from the spec (§4.B): issue opcode + payload. -/
def brd_write_command (op : OpCode) (payload : List Nat) : M Unit := do
  let _ ← busAction (Action.writeCommand op payload)
  pure ()

/-- Modelled from the spec (§4.B): issue opcode, read `len` response bytes. -/
def brd_read_command (op : OpCode) (len : Nat) : M (List Nat) := do
  let bs ← busAction (Action.readCommand op len)
  pure (fillBytes len bs)

/-- Modelled from the spec (§4.B): write a register range. -/
def brd_write_registers (r : Register) (bytes : List Nat) : M Unit := do
  let _ ← busAction (Action.writeRegisters r bytes)
  pure ()

/-- Modelled from the spec (§4.B): read `len` bytes from a register range. -/
def brd_read_registers (r : Register) (len : Nat) : M (List Nat) := do
  let bs ← busAction (Action.readRegisters r len)
  pure (fillBytes len bs)

/-- Modelled from the spec (§4.B): read `len` bytes of the radio data buffer. -/
def brd_read_buffer (offset : Nat) (len : Nat) : M (List Nat) := do
  let bs ← busAction (Action.readBuffer offset len)
  pure (fillBytes len bs)

/-- Modelled from the spec (§4.B): write the radio data buffer. -/
def brd_write_buffer (offset : Nat) (payload : List Nat) : M Unit := do
  let _ ← busAction (Action.writeBuffer offset payload)
  pure ()

/-- Modelled from the spec (§4.A): put the antenna switch in sleep mode. -/
def brd_ant_sleep : M Unit := do
  let _ ← busAction Action.antSleep
  pure ()

/-- Modelled from the spec (§4.A): put the antenna switch in Tx mode. -/
def brd_ant_set_tx : M Unit := do
  let _ ← busAction Action.antTx
  pure ()

/-- Modelled from the spec (§4.A): put the antenna switch in Rx mode. -/
def brd_ant_set_rx : M Unit := do
  let _ ← busAction Action.antRx
  pure ()

/-- The `brd_set_operating_mode`: record the operating mode in the driver state. -/
def brd_set_operating_mode (m : RadioMode) : M Unit := fun _ s =>
  (Except.ok (), { s with driver := { s.driver with operating_mode := m } })

/-- Read the driver state. -/
def getDriver : M DriverState := fun _ s => (Except.ok s.driver, s)

/-- Assign the `image_calibrated` field. -/
def set_image_calibrated (b : Bool) : M Unit := fun _ s =>
  (Except.ok (), { s with driver := { s.driver with image_calibrated := b } })

/-- Run a computation from a driver state with an empty trace and transaction
counter 0. -/
def runSub {α : Type} (m : M α) (env : Env) (d : DriverState) :
    Except RadioError α × RunState :=
  m env { driver := d, trace := [], steps := 0 }

/-! ## The command-issuing subroutines (from `subroutine.rs`) -/

/-- The `sub_set_standby`: issue SetStandby, record the corresponding standby
mode, put the antenna to sleep. -/
def sub_set_standby (mode : StandbyMode) : M Unit := do
  brd_write_command OpCode.SetStandby [mode.value]
  if mode = StandbyMode.RC then
    brd_set_operating_mode RadioMode.StandbyRC
  else
    brd_set_operating_mode RadioMode.StandbyXOSC
  brd_ant_sleep

/-- The `sub_set_sleep`: antenna to sleep; clear `image_calibrated` unless warm
start; issue SetSleep; record Sleep mode. -/
def sub_set_sleep (sleep_config : SleepParams) : M Unit := do
  brd_ant_sleep
  if sleep_config.warm_start = false then
    set_image_calibrated false
  brd_write_command OpCode.SetSleep [sleep_config.value]
  brd_set_operating_mode RadioMode.Sleep

/-- The `sub_set_tx`: antenna to Tx; record Transmit mode; issue SetTx with the
24-bit timeout packed big-endian. -/
def sub_set_tx (timeout : Nat) : M Unit := do
  let buffer := [timeout_1 timeout, timeout_2 timeout, timeout_3 timeout]
  brd_ant_set_tx
  brd_set_operating_mode RadioMode.Transmit
  brd_write_command OpCode.SetTx buffer

/-- The `sub_set_rx`: antenna to Rx; record Receive mode; write `0x94` to RxGain;
issue SetRx with the packed timeout. -/
def sub_set_rx (timeout : Nat) : M Unit := do
  let buffer := [timeout_1 timeout, timeout_2 timeout, timeout_3 timeout]
  brd_ant_set_rx
  brd_set_operating_mode RadioMode.Receive
  brd_write_registers Register.RxGain [0x94]
  brd_write_command OpCode.SetRx buffer

/-- The `sub_set_cad_params`: issue SetCADParams with the packed parameter buffer,
then record ChannelActivityDetection mode. -/
def sub_set_cad_params (symbols : CADSymbols) (det_peak det_min : Nat)
    (exit_mode : CADExitMode) (timeout : Nat) : M Unit := do
  let buffer := [symbols.value, det_peak, det_min, exit_mode.value,
    timeout_1 timeout, timeout_2 timeout, timeout_3 timeout]
  brd_write_command OpCode.SetCADParams buffer
  brd_set_operating_mode RadioMode.ChannelActivityDetection

/-- The `sub_calibrate_image`: issue CalibrateImage with the two calibration-band
bytes selected from the frequency. -/
def sub_calibrate_image (freq : Nat) : M Unit :=
  brd_write_command OpCode.CalibrateImage (cal_band_bytes freq)

/-- The `sub_set_rf_frequency`: calibrate the image (and set the flag) if not yet
calibrated; convert the frequency to PLL steps; issue SetRFFrequency with the
32-bit step count packed big-endian. -/
def sub_set_rf_frequency (frequency : Nat) : M Unit := do
  let d ← getDriver
  if d.image_calibrated = false then
    sub_calibrate_image frequency
    set_image_calibrated true
  let freq_in_pll_steps := convert_freq_in_hz_to_pll_step frequency
  brd_write_command OpCode.SetRFFrequency
    [(freq_in_pll_steps >>> 24) &&& 0xFF, (freq_in_pll_steps >>> 16) &&& 0xFF,
      (freq_in_pll_steps >>> 8) &&& 0xFF, freq_in_pll_steps &&& 0xFF]

/-- The `sub_set_lora_symb_num_timeout`: encode the (clamped) symbol count as
mantissa/exponent, issue SetLoRaSymbTimeout with `mant << (2*exp + 1)`, and,
when the requested count is nonzero, write `exp + (mant << 3)` to the
SynchTimeout register. -/
def sub_set_lora_symb_num_timeout (symb_num : Nat) : M Unit := do
  let me := symbTimeoutEncode symb_num
  brd_write_command OpCode.SetLoRaSymbTimeout [(me.1 <<< (2 * me.2 + 1)) % 256]
  if symb_num ≠ 0 then
    brd_write_registers Register.SynchTimeout [(me.2 + (me.1 <<< 3)) % 256]

/-- The `sub_get_rx_buffer_status`: fail if packet params were never set; read the
2-byte rx buffer status; in LoRa implicit-header mode read the payload length
from the PayloadLength register, otherwise take it from the status; return
`(payload_length, offset)`. -/
def sub_get_rx_buffer_status : M (Nat × Nat) := do
  let d ← getDriver
  match d.packet_params with
  | none => throwM RadioError.PacketParamsMissing
  | some pp => do
    let status ← brd_read_command OpCode.GetRxBufferStatus 2
    if d.packet_type = PacketType.LoRa ∧ pp.implicit_header = true then
      let plb ← brd_read_registers Register.PayloadLength 1
      pure (plb.getD 0 0, status.getD 1 0)
    else
      pure (status.getD 0 0, status.getD 1 0)

/-- The `sub_get_payload` for a caller buffer of length `buffer_len`: read the rx
buffer status; if the reported size exceeds the buffer, fail with
`PayloadSizeMismatch` (no buffer read); otherwise read the payload from the
reported offset and return the size. -/
def sub_get_payload (buffer_len : Nat) : M Nat := do
  let so ← sub_get_rx_buffer_status
  if so.1 > buffer_len then
    throwM (RadioError.PayloadSizeMismatch so.1 buffer_len)
  else do
    let _ ← brd_read_buffer so.2 buffer_len
    pure so.1

/-- The `sub_get_packet_status`: read three status bytes and decode them with the
source's signed arithmetic (`i32` negate-then-shift for the RSSI fields, `i8`
add-then-shift for SNR). -/
def sub_get_packet_status : M PacketStatus := do
  let d ← getDriver
  let status ← brd_read_command OpCode.GetPacketStatus 3
  let rssi := wrap8 (asr (-(status.getD 0 0 : Int)) 1)
  let snr := asr (wrap8 (toI8 (status.getD 1 0) + 2)) 2
  let signal_rssi := wrap8 (asr (-(status.getD 2 0 : Int)) 1)
  pure { rssi := rssi, snr := snr, signal_rssi := signal_rssi,
         freq_error := d.frequency_error }

/-- The `sub_get_random`: save AnaLNA and AnaMixer; write them back with bit 0
resp. bit 7 cleared; enter continuous reception (timeout `0xFFFFFF`); read
four bytes from GeneratedRandomNumber; return to Standby RC; restore the two
registers; assemble the four bytes big-endian. -/
def sub_get_random : M Nat := do
  let lna ← brd_read_registers Register.AnaLNA 1
  brd_write_registers Register.AnaLNA [lna.getD 0 0 &&& not8 (1 <<< 0)]
  let mixer ← brd_read_registers Register.AnaMixer 1
  brd_write_registers Register.AnaMixer [mixer.getD 0 0 &&& not8 (1 <<< 7)]
  sub_set_rx 0xFFFFFF
  let nb ← brd_read_registers Register.GeneratedRandomNumber 4
  sub_set_standby StandbyMode.RC
  brd_write_registers Register.AnaLNA [lna.getD 0 0]
  brd_write_registers Register.AnaMixer [mixer.getD 0 0]
  pure (convert_u8_buffer_to_u32 (nb.getD 0 0) (nb.getD 1 0) (nb.getD 2 0) (nb.getD 3 0))

/-! ## The `Timings` capability (from `mod.rs`) -/

/-- The `Timings::get_rx_window_offset_ms` for `Sx126xRadio`. -/
def get_rx_window_offset_ms : Int := -50

/-- The `Timings::get_rx_window_duration_ms` for `Sx126xRadio`. -/
def get_rx_window_duration_ms : Nat := 1000

/-! ## Concrete fixtures used to instantiate the theorems -/

/-- Byte `k` of the `len`-byte read performed as transaction `i`. -/
def readByte (env : Env) (i len k : Nat) : Nat := (fillBytes len (env.readData i)).getD k 0

/-- A driver state after standby: Standby RC, not image-calibrated, LoRa. -/
def dStd : DriverState :=
  { operating_mode := RadioMode.StandbyRC, image_calibrated := false,
    packet_type := PacketType.LoRa, packet_params := none, frequency_error := 0 }

/-- Packet parameters with explicit header, as configured by `set_rx_config`. -/
def ppExplicit : PacketParams :=
  { preamble_length := 8, implicit_header := false, payload_length := 255,
    crc_on := true, iq_inverted := true }

/-- The `dStd` with packet parameters configured (explicit header). -/
def dPP : DriverState := { dStd with packet_params := some ppExplicit }

/-- Environment in which every bus transaction succeeds and reads return no
data (reads are padded with zero bytes). -/
def envOk : Env := { busOk := fun _ => true, readData := fun _ => [] }

/-- Environment in which only the first bus transaction succeeds. -/
def envFailSecond : Env := { busOk := fun i => i == 0, readData := fun _ => [] }

/-- Environment whose GetPacketStatus read returns raw bytes `[111, 9, 111]`
(odd RSSI raw bytes). -/
def envPkt111 : Env :=
  { busOk := fun _ => true, readData := fun i => if i = 0 then [111, 9, 111] else [] }

/-- Environment whose GetPacketStatus read returns raw bytes `[110, 9, 110]`
(the spec's S4 scenario). -/
def envPkt110 : Env :=
  { busOk := fun _ => true, readData := fun i => if i = 0 then [110, 9, 110] else [] }

/-- Environment whose GetRxBufferStatus read reports payload size 5 at
offset 3. -/
def envRx53 : Env :=
  { busOk := fun _ => true, readData := fun i => if i = 0 then [5, 3] else [] }

/-- Environment for `sub_get_random`: AnaLNA reads `0xAB`, AnaMixer reads
`0xCD`, GeneratedRandomNumber reads `[17, 34, 51, 68]`. -/
def envRnd : Env :=
  { busOk := fun _ => true,
    readData := fun i =>
      if i = 0 then [0xAB] else if i = 2 then [0xCD]
      else if i = 7 then [17, 34, 51, 68] else [] }

/-- The packet status decoded from raw bytes `[110, 9, 110]` (spec S4):
rssi −55 dBm, snr 2 dB. -/
def ps110 : PacketStatus := { rssi := -55, snr := 2, signal_rssi := -55, freq_error := 0 }

/-! ## Helper lemmas -/

/-- Every byte selected from a `fillBytes` result is below 256. -/
theorem getD_lt_of_forall {l : List Nat} (h : ∀ x ∈ l, x < 256) (k : Nat) :
    l.getD k 0 < 256 := by
  induction l generalizing k with
  | nil => simp [List.getD]
  | cons a t ih =>
    cases k with
    | zero => simpa using h a (by simp)
    | succ k => simpa using ih (fun x hx => h x (by simp [hx])) k

/-- The `fillBytes` produces bytes: each selected element is below 256. -/
theorem fillBytes_getD_lt (len : Nat) (l : List Nat) (k : Nat) :
    (fillBytes len l).getD k 0 < 256 := by
  apply getD_lt_of_forall
  intro x hx
  unfold fillBytes at hx
  have hx2 := List.take_subset _ _ hx
  rcases List.mem_append.mp hx2 with hmap | hrep
  · obtain ⟨y, _, rfl⟩ := List.mem_map.mp hmap
    exact Nat.mod_lt _ (by norm_num)
  · have := List.eq_of_mem_replicate hrep
    omega

/-- The `readByte` yields a byte. -/
theorem readByte_lt (env : Env) (i len k : Nat) : readByte env i len k < 256 :=
  fillBytes_getD_lt len (env.readData i) k

/-- The fuel `mant` given to `symbTimeoutLoop` by `symbTimeoutEncode` is
always enough: adding more fuel does not change the result, so the fuelled
function computes the exact while-loop semantics. -/
theorem symbTimeoutLoop_stable (fuel mant exp : Nat) (h : mant ≤ fuel) :
    symbTimeoutLoop (fuel + 1) mant exp = symbTimeoutLoop fuel mant exp := by
  induction fuel generalizing mant exp with
  | zero =>
    interval_cases mant
    simp [symbTimeoutLoop]
  | succ f ih =>
    by_cases h31 : mant > 31
    · have hstep : (mant + 3) >>> 2 ≤ f := by
        have := Nat.shiftRight_eq_div_pow (mant + 3) 2
        omega
      calc symbTimeoutLoop (f + 2) mant exp
          = symbTimeoutLoop (f + 1) ((mant + 3) >>> 2) (exp + 1) := by
            simp [symbTimeoutLoop, h31]
        _ = symbTimeoutLoop f ((mant + 3) >>> 2) (exp + 1) := ih _ _ hstep
        _ = symbTimeoutLoop (f + 1) mant exp := by simp [symbTimeoutLoop, h31]
    · simp [symbTimeoutLoop, h31]

/-! ## Claim theorems -/

/-- Claim C1: For every frequency `f` in [150 MHz, 960 MHz],
`convert_freq_in_hz_to_pll_step f` — computed with `XTAL = 32000000`,
`SHIFT = 14`, `STEP = XTAL >> 11` — incurs no `u32` overflow (it agrees with
the unbounded computation) and equals `round (f * 2^25 / 32000000)` to
within ±1. -/
theorem C1_pll_step_round (f : Nat) (h1 : 150000000 ≤ f) (h2 : f ≤ 960000000) :
    convert_freq_in_hz_to_pll_step f = convert_freq_in_hz_to_pll_step_exact f ∧
    convert_freq_in_hz_to_pll_step f ≤ roundDiv (f * 2 ^ 25) SX126X_XTAL_FREQ + 1 ∧
    roundDiv (f * 2 ^ 25) SX126X_XTAL_FREQ ≤ convert_freq_in_hz_to_pll_step f + 1 := by
  have hstep : SX126X_PLL_STEP_SCALED = 15625 := by decide
  have hnw : convert_freq_in_hz_to_pll_step f = convert_freq_in_hz_to_pll_step_exact f := by
    simp only [convert_freq_in_hz_to_pll_step, convert_freq_in_hz_to_pll_step_exact,
      SX126X_PLL_STEP_SHIFT_AMOUNT, U32_MOD, hstep, Nat.shiftLeft_eq]
    norm_num
    have e1 : (f / 15625 * 16384) % 4294967296 = f / 15625 * 16384 :=
      Nat.mod_eq_of_lt (by omega)
    have e2 : ((f - f / 15625 * 15625) * 16384) % 4294967296
        = (f - f / 15625 * 15625) * 16384 := Nat.mod_eq_of_lt (by omega)
    have e3 : ((f - f / 15625 * 15625) * 16384 + 7812) % 4294967296
        = (f - f / 15625 * 15625) * 16384 + 7812 := Nat.mod_eq_of_lt (by omega)
    simp only [e1, e2, e3]
    exact Nat.mod_eq_of_lt (by omega)
  refine ⟨hnw, ?_, ?_⟩ <;>
  · rw [hnw]
    simp only [convert_freq_in_hz_to_pll_step_exact, roundDiv,
      SX126X_PLL_STEP_SHIFT_AMOUNT, SX126X_XTAL_FREQ, hstep, Nat.shiftLeft_eq]
    norm_num
    omega

/-- Witness for C1 at `f = 868100000` (the spec's S2 frequency). -/
theorem C1_pll_step_round_witness :
    150000000 ≤ 868100000 ∧ 868100000 ≤ 960000000 ∧
    (convert_freq_in_hz_to_pll_step 868100000 = convert_freq_in_hz_to_pll_step_exact 868100000 ∧
     convert_freq_in_hz_to_pll_step 868100000 ≤ roundDiv (868100000 * 2 ^ 25) SX126X_XTAL_FREQ + 1 ∧
     roundDiv (868100000 * 2 ^ 25) SX126X_XTAL_FREQ ≤ convert_freq_in_hz_to_pll_step 868100000 + 1) :=
  ⟨by norm_num, by norm_num, C1_pll_step_round 868100000 (by norm_num) (by norm_num)⟩

/-- Counterexample to C2: The claim says `get_rx_window_duration_ms`
returns 1050; the code returns 1000. -/
theorem C2_counterexample :
    ¬ (get_rx_window_offset_ms = -50 ∧ get_rx_window_duration_ms = 1050) := by
  decide

/-- Claim C2 amended: The `Timings` capability returns exactly −50 from
`get_rx_window_offset_ms` and exactly 1000 (not 1050) from
`get_rx_window_duration_ms`. -/
theorem C2_timings :
    get_rx_window_offset_ms = -50 ∧ get_rx_window_duration_ms = 1000 := by
  decide

/-- Counterexample to C3: `sub_set_tx` records `operating_mode = Transmit`
*before* issuing SetTx: in an environment where the antenna switch succeeds
but the SetTx SPI write fails, the subroutine returns an error, no SetTx frame
is ever issued (the trace holds only the antenna action), and yet
`operating_mode = Transmit` — so `operating_mode = Transmit` does *not* imply
the SetTx frame was issued successfully. -/
theorem C3_counterexample :
    (runSub (sub_set_tx 16777215) envFailSecond dStd).1 = Except.error RadioError.SPI ∧
    (runSub (sub_set_tx 16777215) envFailSecond dStd).2.driver.operating_mode
      = RadioMode.Transmit ∧
    (runSub (sub_set_tx 16777215) envFailSecond dStd).2.trace = [Action.antTx] := by
  decide

/-- Claim C3 amended: `operating_mode` is assigned the target mode before the
command frame is issued, so the mirror property holds only for successful
returns: when `sub_set_tx` returns `Ok`, the SetTx frame was issued and
`operating_mode = Transmit`; when `sub_set_cad_params` returns `Ok`, the
SetCADParams configuration frame was issued and `operating_mode` was set to
`ChannelActivityDetection` (a mode the chip itself does not enter on this
command).  On an error return `operating_mode` may name a mode whose command
was never issued (see the counterexample). -/
theorem C3_operating_mode :
    (∀ env d t s', runSub (sub_set_tx t) env d = (Except.ok (), s') →
      s'.driver.operating_mode = RadioMode.Transmit ∧
      Action.writeCommand OpCode.SetTx [timeout_1 t, timeout_2 t, timeout_3 t] ∈ s'.trace) ∧
    (∀ env d symbols det_peak det_min exit_mode t s',
      runSub (sub_set_cad_params symbols det_peak det_min exit_mode t) env d
        = (Except.ok (), s') →
      s'.driver.operating_mode = RadioMode.ChannelActivityDetection ∧
      Action.writeCommand OpCode.SetCADParams
        [symbols.value, det_peak, det_min, exit_mode.value,
          timeout_1 t, timeout_2 t, timeout_3 t] ∈ s'.trace) := by
  constructor
  · intro env d t s' h
    cases h0 : env.busOk 0
    · simp [runSub, sub_set_tx, brd_ant_set_tx, brd_set_operating_mode, brd_write_command,
        busAction, Bind.bind, Pure.pure, instMonadM, h0] at h
    · cases h1 : env.busOk 1
      · simp [runSub, sub_set_tx, brd_ant_set_tx, brd_set_operating_mode, brd_write_command,
          busAction, Bind.bind, Pure.pure, instMonadM, h0, h1] at h
      · simp [runSub, sub_set_tx, brd_ant_set_tx, brd_set_operating_mode, brd_write_command,
          busAction, Bind.bind, Pure.pure, instMonadM, h0, h1] at h
        simp [← h]
  · intro env d symbols det_peak det_min exit_mode t s' h
    cases h0 : env.busOk 0
    · simp [runSub, sub_set_cad_params, brd_write_command, brd_set_operating_mode,
        busAction, Bind.bind, Pure.pure, instMonadM, h0] at h
    · simp [runSub, sub_set_cad_params, brd_write_command, brd_set_operating_mode,
        busAction, Bind.bind, Pure.pure, instMonadM, h0] at h
      simp [← h]

/-- Witness for C3: successful `sub_set_tx` and `sub_set_cad_params` runs in
an all-success environment. -/
theorem C3_operating_mode_witness :
    ((runSub (sub_set_tx 100) envOk dStd).2.driver.operating_mode = RadioMode.Transmit ∧
      Action.writeCommand OpCode.SetTx [timeout_1 100, timeout_2 100, timeout_3 100]
        ∈ (runSub (sub_set_tx 100) envOk dStd).2.trace) ∧
    ((runSub (sub_set_cad_params ⟨1⟩ 22 10 ⟨0⟩ 5) envOk dStd).2.driver.operating_mode
        = RadioMode.ChannelActivityDetection ∧
      Action.writeCommand OpCode.SetCADParams
        [(1 : Nat), 22, 10, 0, timeout_1 5, timeout_2 5, timeout_3 5]
        ∈ (runSub (sub_set_cad_params ⟨1⟩ 22 10 ⟨0⟩ 5) envOk dStd).2.trace) :=
  ⟨C3_operating_mode.1 envOk dStd 100 _ (by decide),
    C3_operating_mode.2 envOk dStd ⟨1⟩ 22 10 ⟨0⟩ 5 _ (by decide)⟩

/-- Run characterization of `sub_set_lora_symb_num_timeout`: a successful run
issues SetLoRaSymbTimeout with the (wrapped) byte `mant << (2*exp+1)` and,
iff the requested count is nonzero, writes the (wrapped) byte
`exp + (mant << 3)` to SynchTimeout. -/
theorem sub_set_lora_symb_run (n : Nat) (env : Env) (d : DriverState) (s' : RunState)
    (h : runSub (sub_set_lora_symb_num_timeout n) env d = (Except.ok (), s')) :
    s'.trace = Action.writeCommand OpCode.SetLoRaSymbTimeout
        [((symbTimeoutEncode n).1 <<< (2 * (symbTimeoutEncode n).2 + 1)) % 256]
      :: (if n ≠ 0 then
          [Action.writeRegisters Register.SynchTimeout
            [((symbTimeoutEncode n).2 + ((symbTimeoutEncode n).1 <<< 3)) % 256]]
        else []) := by
  by_cases hn : n = 0
  · subst hn
    cases h0 : env.busOk 0
    · simp [runSub, sub_set_lora_symb_num_timeout, brd_write_command, brd_write_registers,
        busAction, Bind.bind, Pure.pure, instMonadM, h0] at h
    · simp [runSub, sub_set_lora_symb_num_timeout, brd_write_command, brd_write_registers,
        busAction, Bind.bind, Pure.pure, instMonadM, h0] at h
      simp [← h]
  · cases h0 : env.busOk 0
    · simp [runSub, sub_set_lora_symb_num_timeout, brd_write_command, brd_write_registers,
        busAction, Bind.bind, Pure.pure, instMonadM, h0, hn] at h
    · cases h1 : env.busOk 1
      · simp [runSub, sub_set_lora_symb_num_timeout, brd_write_command, brd_write_registers,
          busAction, Bind.bind, Pure.pure, instMonadM, h0, h1, hn] at h
      · simp [runSub, sub_set_lora_symb_num_timeout, brd_write_command, brd_write_registers,
          busAction, Bind.bind, Pure.pure, instMonadM, h0, h1, hn] at h
        simp [← h, hn]

/-- Claim C4: For every `n ≤ 248`, `sub_set_lora_symb_num_timeout n` computes a
mantissa `m ≤ 31` and exponent `e` with `m * 2^(2e+1) ≥ n`; a successful run
writes the single byte `m << (2e+1)` via the SetLoRaSymbTimeout opcode and
additionally writes the byte `e ||| (m << 3)` to the SynchTimeout register if
and only if `n ≠ 0`. -/
theorem C4_symb_num_timeout (n : Nat) (hn : n ≤ 248) :
    (symbTimeoutEncode n).1 ≤ 31 ∧
    n ≤ (symbTimeoutEncode n).1 * 2 ^ (2 * (symbTimeoutEncode n).2 + 1) ∧
    (∀ env d s', runSub (sub_set_lora_symb_num_timeout n) env d = (Except.ok (), s') →
      s'.trace = Action.writeCommand OpCode.SetLoRaSymbTimeout
          [(symbTimeoutEncode n).1 <<< (2 * (symbTimeoutEncode n).2 + 1)]
        :: (if n ≠ 0 then
            [Action.writeRegisters Register.SynchTimeout
              [Nat.lor (symbTimeoutEncode n).2 ((symbTimeoutEncode n).1 <<< 3)]]
          else [])) := by
  have hpure : ∀ m : Nat, m ≤ 248 →
      (symbTimeoutEncode m).1 ≤ 31 ∧
      m ≤ (symbTimeoutEncode m).1 * 2 ^ (2 * (symbTimeoutEncode m).2 + 1) ∧
      ((symbTimeoutEncode m).1 <<< (2 * (symbTimeoutEncode m).2 + 1)) % 256
        = (symbTimeoutEncode m).1 <<< (2 * (symbTimeoutEncode m).2 + 1) ∧
      ((symbTimeoutEncode m).2 + ((symbTimeoutEncode m).1 <<< 3)) % 256
        = Nat.lor (symbTimeoutEncode m).2 ((symbTimeoutEncode m).1 <<< 3) := by decide
  obtain ⟨ha, hb, hc, hd⟩ := hpure n hn
  refine ⟨ha, hb, ?_⟩
  intro env d s' h
  rw [sub_set_lora_symb_run n env d s' h, hc, hd]

/-- Witness for C4 at `n = 55` in an all-success environment. -/
theorem C4_symb_num_timeout_witness :
    (symbTimeoutEncode 55).1 ≤ 31 ∧
    55 ≤ (symbTimeoutEncode 55).1 * 2 ^ (2 * (symbTimeoutEncode 55).2 + 1) ∧
    (runSub (sub_set_lora_symb_num_timeout 55) envOk dStd).2.trace
      = Action.writeCommand OpCode.SetLoRaSymbTimeout
          [(symbTimeoutEncode 55).1 <<< (2 * (symbTimeoutEncode 55).2 + 1)]
        :: (if (55 : Nat) ≠ 0 then
            [Action.writeRegisters Register.SynchTimeout
              [Nat.lor (symbTimeoutEncode 55).2 ((symbTimeoutEncode 55).1 <<< 3)]]
          else []) :=
  ⟨(C4_symb_num_timeout 55 (by decide)).1, (C4_symb_num_timeout 55 (by decide)).2.1,
    (C4_symb_num_timeout 55 (by decide)).2.2 envOk dStd _ (by decide)⟩

/-- Claim C10: For every u16 `symb_num` greater than 248,
`sub_set_lora_symb_num_timeout symb_num` behaves identically (same result,
same trace, same final state, in every environment and from every driver
state) to `sub_set_lora_symb_num_timeout 248`: the input is silently clamped
to 248 before encoding rather than rejected. -/
theorem C10_symb_num_clamped (n : Nat) (h1 : 248 < n) (h2 : n < 65536)
    (env : Env) (d : DriverState) :
    runSub (sub_set_lora_symb_num_timeout n) env d
      = runSub (sub_set_lora_symb_num_timeout 248) env d := by
  have hmin : min n SX126X_MAX_LORA_SYMB_NUM_TIMEOUT
      = min 248 SX126X_MAX_LORA_SYMB_NUM_TIMEOUT := by
    simp only [SX126X_MAX_LORA_SYMB_NUM_TIMEOUT]
    omega
  have he : symbTimeoutEncode n = symbTimeoutEncode 248 := by
    unfold symbTimeoutEncode
    rw [hmin]
  have hne : n ≠ 0 := by omega
  simp [sub_set_lora_symb_num_timeout, he, hne]

/-- Witness for C10 at `symb_num = 300`. -/
theorem C10_symb_num_clamped_witness :
    runSub (sub_set_lora_symb_num_timeout 300) envOk dStd
      = runSub (sub_set_lora_symb_num_timeout 248) envOk dStd :=
  C10_symb_num_clamped 300 (by decide) (by decide) envOk dStd

/-- Claim C5: On a successful `sub_set_rf_frequency f` run the final
`image_calibrated` is true, a CalibrateImage frame was issued if and only if
`image_calibrated` was false on entry (so a second call with the flag still
true issues no CalibrateImage), and in that case the frame carries the band
bytes for `f`; on a successful `sub_set_sleep` run `image_calibrated` is
cleared exactly when `warm_start` is false (and otherwise kept). -/
theorem C5_image_calibrated :
    (∀ env d f s', runSub (sub_set_rf_frequency f) env d = (Except.ok (), s') →
      s'.driver.image_calibrated = true ∧
      ((∃ p, Action.writeCommand OpCode.CalibrateImage p ∈ s'.trace) ↔
        d.image_calibrated = false) ∧
      (d.image_calibrated = false →
        Action.writeCommand OpCode.CalibrateImage (cal_band_bytes f) ∈ s'.trace)) ∧
    (∀ env d cfg s', runSub (sub_set_sleep cfg) env d = (Except.ok (), s') →
      s'.driver.image_calibrated = (cfg.warm_start && d.image_calibrated)) := by
  constructor
  · intro env d f s' h
    cases hic : d.image_calibrated
    · cases h0 : env.busOk 0
      · simp [runSub, sub_set_rf_frequency, sub_calibrate_image, getDriver,
          set_image_calibrated, brd_write_command, busAction, Bind.bind, Pure.pure,
          instMonadM, h0, hic] at h
      · cases h1 : env.busOk 1
        · simp [runSub, sub_set_rf_frequency, sub_calibrate_image, getDriver,
            set_image_calibrated, brd_write_command, busAction, Bind.bind, Pure.pure,
            instMonadM, h0, h1, hic] at h
        · simp [runSub, sub_set_rf_frequency, sub_calibrate_image, getDriver,
            set_image_calibrated, brd_write_command, busAction, Bind.bind, Pure.pure,
            instMonadM, h0, h1, hic] at h
          simp [← h]
    · cases h0 : env.busOk 0
      · simp [runSub, sub_set_rf_frequency, sub_calibrate_image, getDriver,
          set_image_calibrated, brd_write_command, busAction, Bind.bind, Pure.pure,
          instMonadM, h0, hic] at h
      · simp [runSub, sub_set_rf_frequency, sub_calibrate_image, getDriver,
          set_image_calibrated, brd_write_command, busAction, Bind.bind, Pure.pure,
          instMonadM, h0, hic] at h
        simp [← h, hic]
  · intro env d cfg s' h
    cases h0 : env.busOk 0
    · simp [runSub, sub_set_sleep, brd_ant_sleep, set_image_calibrated,
        brd_write_command, brd_set_operating_mode, busAction, Bind.bind, Pure.pure,
        instMonadM, h0] at h
    · cases hw : cfg.warm_start
      · cases h1 : env.busOk 1
        · simp [runSub, sub_set_sleep, brd_ant_sleep, set_image_calibrated,
            brd_write_command, brd_set_operating_mode, busAction, Bind.bind, Pure.pure,
            instMonadM, h0, h1, hw] at h
        · simp [runSub, sub_set_sleep, brd_ant_sleep, set_image_calibrated,
            brd_write_command, brd_set_operating_mode, busAction, Bind.bind, Pure.pure,
            instMonadM, h0, h1, hw] at h
          simp [← h]
      · cases h1 : env.busOk 1
        · simp [runSub, sub_set_sleep, brd_ant_sleep, set_image_calibrated,
            brd_write_command, brd_set_operating_mode, busAction, Bind.bind, Pure.pure,
            instMonadM, h0, h1, hw] at h
        · simp [runSub, sub_set_sleep, brd_ant_sleep, set_image_calibrated,
            brd_write_command, brd_set_operating_mode, busAction, Bind.bind, Pure.pure,
            instMonadM, h0, h1, hw] at h
          simp [← h]

/-- Witness for C5: a first `sub_set_rf_frequency` call from the
not-yet-calibrated state `dStd`, and a cold (`warm_start = false`) sleep. -/
theorem C5_image_calibrated_witness :
    ((runSub (sub_set_rf_frequency 868100000) envOk dStd).2.driver.image_calibrated = true ∧
      ((∃ p, Action.writeCommand OpCode.CalibrateImage p
          ∈ (runSub (sub_set_rf_frequency 868100000) envOk dStd).2.trace) ↔
        dStd.image_calibrated = false) ∧
      (dStd.image_calibrated = false →
        Action.writeCommand OpCode.CalibrateImage (cal_band_bytes 868100000)
          ∈ (runSub (sub_set_rf_frequency 868100000) envOk dStd).2.trace)) ∧
    (runSub (sub_set_sleep ⟨false⟩) envOk dStd).2.driver.image_calibrated
      = ((⟨false⟩ : SleepParams).warm_start && dStd.image_calibrated) :=
  ⟨C5_image_calibrated.1 envOk dStd 868100000 _ (by decide),
    C5_image_calibrated.2 envOk dStd ⟨false⟩ _ (by decide)⟩

/-- Claim C8: A successful `sub_calibrate_image freq` run issues exactly one
CalibrateImage frame carrying `cal_band_bytes freq`, and `cal_band_bytes`
selects the band pair of the first matching threshold: `[0xE1, 0xE9]` above
900 MHz, `[0xD7, 0xDB]` above 850 MHz, `[0xC1, 0xC5]` above 770 MHz,
`[0x75, 0x81]` above 460 MHz, `[0x6B, 0x6F]` above 425 MHz. -/
theorem C8_calibrate_image (env : Env) (d : DriverState) (freq : Nat) (s' : RunState)
    (h : runSub (sub_calibrate_image freq) env d = (Except.ok (), s')) :
    s'.trace = [Action.writeCommand OpCode.CalibrateImage (cal_band_bytes freq)] ∧
    (900000000 < freq → cal_band_bytes freq = [0xE1, 0xE9]) ∧
    (850000000 < freq → freq ≤ 900000000 → cal_band_bytes freq = [0xD7, 0xDB]) ∧
    (770000000 < freq → freq ≤ 850000000 → cal_band_bytes freq = [0xC1, 0xC5]) ∧
    (460000000 < freq → freq ≤ 770000000 → cal_band_bytes freq = [0x75, 0x81]) ∧
    (425000000 < freq → freq ≤ 460000000 → cal_band_bytes freq = [0x6B, 0x6F]) := by
  refine ⟨?_, ?_, ?_, ?_, ?_, ?_⟩
  · cases h0 : env.busOk 0
    · simp [runSub, sub_calibrate_image, brd_write_command, busAction,
        Bind.bind, Pure.pure, instMonadM, h0] at h
    · simp [runSub, sub_calibrate_image, brd_write_command, busAction,
        Bind.bind, Pure.pure, instMonadM, h0] at h
      simp [← h]
  all_goals
    intro hlo
    try intro hhi
    simp only [cal_band_bytes]
    split_ifs <;> first | rfl | omega

/-- Witness for C8 at `freq = 868100000` (the 850–900 MHz band). -/
theorem C8_calibrate_image_witness :
    (runSub (sub_calibrate_image 868100000) envOk dStd).2.trace
      = [Action.writeCommand OpCode.CalibrateImage (cal_band_bytes 868100000)] ∧
    (850000000 < 868100000 → 868100000 ≤ 900000000 →
      cal_band_bytes 868100000 = [0xD7, 0xDB]) :=
  ⟨(C8_calibrate_image envOk dStd 868100000
      (runSub (sub_calibrate_image 868100000) envOk dStd).2 (by decide)).1,
    (C8_calibrate_image envOk dStd 868100000
      (runSub (sub_calibrate_image 868100000) envOk dStd).2 (by decide)).2.2.1⟩

/-- Counterexample to C6: For the odd raw RSSI byte 111 the code computes
`(-(111 : i32)) >> 1 = -56`, while the claim's formula `-(raw >> 1)` yields
`-55`: the two decodings disagree on odd raw bytes. -/
theorem C6_counterexample :
    (runSub sub_get_packet_status envPkt111 dStd).1 =
      Except.ok { rssi := -56, snr := 2, signal_rssi := -56, freq_error := 0 } ∧
    (-56 : Int) ≠ -(((111 : Nat) >>> 1 : Nat) : Int) := by
  decide

/-- Claim C6 amended: For every 3-byte status `[raw0, raw1, raw2]` returned
by GetPacketStatus, `sub_get_packet_status` returns rssi `= (-raw0) >> 1`
(arithmetic shift *after* negation, i.e. `-⌈raw0/2⌉`, which is `-(raw0 >> 1)`
only for even `raw0`), snr `= ((raw1 as i8) + 2) >> 2` (wrapping i8
arithmetic), signal_rssi `= (-raw2) >> 1`, and the stored frequency error. -/
theorem C6_packet_status (env : Env) (d : DriverState) (ps : PacketStatus) (s' : RunState)
    (h : runSub sub_get_packet_status env d = (Except.ok ps, s')) :
    ps.rssi = asr (-(readByte env 0 3 0 : Int)) 1 ∧
    ps.snr = asr (wrap8 (toI8 (readByte env 0 3 1) + 2)) 2 ∧
    ps.signal_rssi = asr (-(readByte env 0 3 2 : Int)) 1 ∧
    ps.freq_error = d.frequency_error ∧
    s'.trace = [Action.readCommand OpCode.GetPacketStatus 3] := by
  have hw : ∀ b : Nat, b < 256 → wrap8 (asr (-(b : Int)) 1) = asr (-(b : Int)) 1 := by decide
  cases h0 : env.busOk 0
  · simp [runSub, sub_get_packet_status, getDriver, brd_read_command, busAction,
      Bind.bind, Pure.pure, instMonadM, h0] at h
  · simp [runSub, sub_get_packet_status, getDriver, brd_read_command, busAction,
      Bind.bind, Pure.pure, instMonadM, h0] at h
    obtain ⟨h1, h2⟩ := h
    have b0 := fillBytes_getD_lt 3 (env.readData 0) 0
    have b2 := fillBytes_getD_lt 3 (env.readData 0) 2
    simp only [List.getD_eq_getElem?_getD] at b0 b2
    simp [← h1, ← h2, readByte, hw _ b0, hw _ b2]

/-- Witness for C6: raw bytes `[110, 9, 110]` decode to rssi −55, snr 2
(the spec's S4 numbers). -/
theorem C6_packet_status_witness :
    ps110.rssi = asr (-(readByte envPkt110 0 3 0 : Int)) 1 ∧
    ps110.snr = asr (wrap8 (toI8 (readByte envPkt110 0 3 1) + 2)) 2 ∧
    ps110.signal_rssi = asr (-(readByte envPkt110 0 3 2 : Int)) 1 ∧
    ps110.freq_error = dStd.frequency_error ∧
    (runSub sub_get_packet_status envPkt110 dStd).2.trace
      = [Action.readCommand OpCode.GetPacketStatus 3] :=
  C6_packet_status envPkt110 dStd ps110
    (runSub sub_get_packet_status envPkt110 dStd).2 (by decide)

/-- Claim C7: A successful `sub_get_random` run reads and saves the AnaLNA and
AnaMixer bytes, writes back AnaLNA with bit 0 cleared and AnaMixer with bit 7
cleared (other bits preserved by the mask), enters reception with timeout
`0xFFFFFF` (= bytes FF FF FF), reads four bytes from GeneratedRandomNumber,
returns to Standby RC, restores the original AnaLNA and AnaMixer bytes, and
returns the four read bytes assembled big-endian. -/
theorem C7_get_random (env : Env) (d : DriverState) (v : Nat) (s' : RunState)
    (h : runSub sub_get_random env d = (Except.ok v, s')) :
    s'.trace = [Action.readRegisters Register.AnaLNA 1,
      Action.writeRegisters Register.AnaLNA [readByte env 0 1 0 &&& not8 (1 <<< 0)],
      Action.readRegisters Register.AnaMixer 1,
      Action.writeRegisters Register.AnaMixer [readByte env 2 1 0 &&& not8 (1 <<< 7)],
      Action.antRx,
      Action.writeRegisters Register.RxGain [0x94],
      Action.writeCommand OpCode.SetRx
        [timeout_1 0xFFFFFF, timeout_2 0xFFFFFF, timeout_3 0xFFFFFF],
      Action.readRegisters Register.GeneratedRandomNumber 4,
      Action.writeCommand OpCode.SetStandby [StandbyMode.RC.value],
      Action.antSleep,
      Action.writeRegisters Register.AnaLNA [readByte env 0 1 0],
      Action.writeRegisters Register.AnaMixer [readByte env 2 1 0]] ∧
    v = convert_u8_buffer_to_u32 (readByte env 7 4 0) (readByte env 7 4 1)
          (readByte env 7 4 2) (readByte env 7 4 3) ∧
    s'.driver.operating_mode = RadioMode.StandbyRC ∧
    [timeout_1 0xFFFFFF, timeout_2 0xFFFFFF, timeout_3 0xFFFFFF] = [0xFF, 0xFF, 0xFF] ∧
    StandbyMode.RC.value = 0x00 := by
  cases h0 : env.busOk 0
  · simp [runSub, sub_get_random, sub_set_rx, sub_set_standby, brd_read_registers, brd_write_registers, brd_write_command, brd_ant_set_rx, brd_ant_sleep, brd_set_operating_mode, busAction, Bind.bind, Pure.pure, instMonadM, h0] at h
  ·
    cases h1 : env.busOk 1
    · simp [runSub, sub_get_random, sub_set_rx, sub_set_standby, brd_read_registers, brd_write_registers, brd_write_command, brd_ant_set_rx, brd_ant_sleep, brd_set_operating_mode, busAction, Bind.bind, Pure.pure, instMonadM, h0, h1] at h
    ·
      cases h2 : env.busOk 2
      · simp [runSub, sub_get_random, sub_set_rx, sub_set_standby, brd_read_registers, brd_write_registers, brd_write_command, brd_ant_set_rx, brd_ant_sleep, brd_set_operating_mode, busAction, Bind.bind, Pure.pure, instMonadM, h0, h1, h2] at h
      ·
        cases h3 : env.busOk 3
        · simp [runSub, sub_get_random, sub_set_rx, sub_set_standby, brd_read_registers, brd_write_registers, brd_write_command, brd_ant_set_rx, brd_ant_sleep, brd_set_operating_mode, busAction, Bind.bind, Pure.pure, instMonadM, h0, h1, h2, h3] at h
        ·
          cases h4 : env.busOk 4
          · simp [runSub, sub_get_random, sub_set_rx, sub_set_standby, brd_read_registers, brd_write_registers, brd_write_command, brd_ant_set_rx, brd_ant_sleep, brd_set_operating_mode, busAction, Bind.bind, Pure.pure, instMonadM, h0, h1, h2, h3, h4] at h
          ·
            cases h5 : env.busOk 5
            · simp [runSub, sub_get_random, sub_set_rx, sub_set_standby, brd_read_registers, brd_write_registers, brd_write_command, brd_ant_set_rx, brd_ant_sleep, brd_set_operating_mode, busAction, Bind.bind, Pure.pure, instMonadM, h0, h1, h2, h3, h4, h5] at h
            ·
              cases h6 : env.busOk 6
              · simp [runSub, sub_get_random, sub_set_rx, sub_set_standby, brd_read_registers, brd_write_registers, brd_write_command, brd_ant_set_rx, brd_ant_sleep, brd_set_operating_mode, busAction, Bind.bind, Pure.pure, instMonadM, h0, h1, h2, h3, h4, h5, h6] at h
              ·
                cases h7 : env.busOk 7
                · simp [runSub, sub_get_random, sub_set_rx, sub_set_standby, brd_read_registers, brd_write_registers, brd_write_command, brd_ant_set_rx, brd_ant_sleep, brd_set_operating_mode, busAction, Bind.bind, Pure.pure, instMonadM, h0, h1, h2, h3, h4, h5, h6, h7] at h
                ·
                  cases h8 : env.busOk 8
                  · simp [runSub, sub_get_random, sub_set_rx, sub_set_standby, brd_read_registers, brd_write_registers, brd_write_command, brd_ant_set_rx, brd_ant_sleep, brd_set_operating_mode, busAction, Bind.bind, Pure.pure, instMonadM, h0, h1, h2, h3, h4, h5, h6, h7, h8] at h
                  ·
                    cases h9 : env.busOk 9
                    · simp [runSub, sub_get_random, sub_set_rx, sub_set_standby, brd_read_registers, brd_write_registers, brd_write_command, brd_ant_set_rx, brd_ant_sleep, brd_set_operating_mode, busAction, Bind.bind, Pure.pure, instMonadM, h0, h1, h2, h3, h4, h5, h6, h7, h8, h9] at h
                    ·
                      cases h10 : env.busOk 10
                      · simp [runSub, sub_get_random, sub_set_rx, sub_set_standby, brd_read_registers, brd_write_registers, brd_write_command, brd_ant_set_rx, brd_ant_sleep, brd_set_operating_mode, busAction, Bind.bind, Pure.pure, instMonadM, h0, h1, h2, h3, h4, h5, h6, h7, h8, h9, h10] at h
                      ·
                        cases h11 : env.busOk 11
                        · simp [runSub, sub_get_random, sub_set_rx, sub_set_standby, brd_read_registers, brd_write_registers, brd_write_command, brd_ant_set_rx, brd_ant_sleep, brd_set_operating_mode, busAction, Bind.bind, Pure.pure, instMonadM, h0, h1, h2, h3, h4, h5, h6, h7, h8, h9, h10, h11] at h
                        · simp [runSub, sub_get_random, sub_set_rx, sub_set_standby, brd_read_registers, brd_write_registers, brd_write_command, brd_ant_set_rx, brd_ant_sleep, brd_set_operating_mode, busAction, Bind.bind, Pure.pure, instMonadM, h0, h1, h2, h3, h4, h5, h6, h7, h8, h9, h10, h11] at h
                          obtain ⟨ha, hb⟩ := h
                          refine ⟨?_, ?_, ?_, by decide, by decide⟩
                          · simp [← hb, readByte, List.getD_eq_getElem?_getD]
                          · simp [← ha, readByte, List.getD_eq_getElem?_getD, convert_u8_buffer_to_u32]
                          · simp [← hb]

/-- Witness for C7: in `envRnd` (AnaLNA = 0xAB, AnaMixer = 0xCD, random bytes
`[17, 34, 51, 68]`) the returned value is `0x11223344 = 287454020` and the
trace shows the clear/restore sequence. -/
theorem C7_get_random_witness :
    (runSub sub_get_random envRnd dStd).2.trace = [Action.readRegisters Register.AnaLNA 1,
      Action.writeRegisters Register.AnaLNA [readByte envRnd 0 1 0 &&& not8 (1 <<< 0)],
      Action.readRegisters Register.AnaMixer 1,
      Action.writeRegisters Register.AnaMixer [readByte envRnd 2 1 0 &&& not8 (1 <<< 7)],
      Action.antRx,
      Action.writeRegisters Register.RxGain [0x94],
      Action.writeCommand OpCode.SetRx
        [timeout_1 0xFFFFFF, timeout_2 0xFFFFFF, timeout_3 0xFFFFFF],
      Action.readRegisters Register.GeneratedRandomNumber 4,
      Action.writeCommand OpCode.SetStandby [StandbyMode.RC.value],
      Action.antSleep,
      Action.writeRegisters Register.AnaLNA [readByte envRnd 0 1 0],
      Action.writeRegisters Register.AnaMixer [readByte envRnd 2 1 0]] ∧
    287454020 = convert_u8_buffer_to_u32 (readByte envRnd 7 4 0) (readByte envRnd 7 4 1)
          (readByte envRnd 7 4 2) (readByte envRnd 7 4 3) ∧
    (runSub sub_get_random envRnd dStd).2.driver.operating_mode = RadioMode.StandbyRC ∧
    [timeout_1 0xFFFFFF, timeout_2 0xFFFFFF, timeout_3 0xFFFFFF] = [0xFF, 0xFF, 0xFF] ∧
    StandbyMode.RC.value = 0x00 :=
  C7_get_random envRnd dStd 287454020 (runSub sub_get_random envRnd dStd).2 (by decide)

/-- A `sub_get_rx_buffer_status` run never reads the radio data buffer,
whatever its outcome. -/
theorem sub_get_rx_buffer_status_trace (env : Env) (d : DriverState)
    (r : Except RadioError (Nat × Nat)) (s' : RunState)
    (h : runSub sub_get_rx_buffer_status env d = (r, s')) (off len : Nat) :
    Action.readBuffer off len ∉ s'.trace := by
  cases hpp : d.packet_params with
  | none =>
    simp [runSub, sub_get_rx_buffer_status, getDriver, throwM, brd_read_command,
      brd_read_registers, busAction, Bind.bind, Pure.pure, instMonadM, hpp] at h
    simp [← h.2]
  | some pp =>
    by_cases him : d.packet_type = PacketType.LoRa ∧ pp.implicit_header = true
    · cases h0 : env.busOk 0
      · simp [runSub, sub_get_rx_buffer_status, getDriver, throwM, brd_read_command,
          brd_read_registers, busAction, Bind.bind, Pure.pure, instMonadM, hpp, him, h0] at h
        simp [← h.2]
      · cases h1 : env.busOk 1
        · simp [runSub, sub_get_rx_buffer_status, getDriver, throwM, brd_read_command,
            brd_read_registers, busAction, Bind.bind, Pure.pure, instMonadM, hpp, him, h0, h1] at h
          simp [← h.2]
        · simp [runSub, sub_get_rx_buffer_status, getDriver, throwM, brd_read_command,
            brd_read_registers, busAction, Bind.bind, Pure.pure, instMonadM, hpp, him, h0, h1] at h
          simp [← h.2]
    · cases h0 : env.busOk 0
      · simp [runSub, sub_get_rx_buffer_status, getDriver, throwM, brd_read_command,
          brd_read_registers, busAction, Bind.bind, Pure.pure, instMonadM, hpp, him, h0] at h
        simp [← h.2]
      · simp [runSub, sub_get_rx_buffer_status, getDriver, throwM, brd_read_command,
          brd_read_registers, busAction, Bind.bind, Pure.pure, instMonadM, hpp, him, h0] at h
        simp [← h.2]

/-- Claim C9: Given that the rx-buffer-status read reports payload size `size`
at offset `offset`, `sub_get_payload` on a caller buffer of capacity
`buffer_len` (a) fails with exactly `PayloadSizeMismatch size buffer_len`
when `size > buffer_len`, leaving the state as after the status read — in
particular no radio-buffer read is performed; (b) otherwise (when the bus
transaction succeeds) reads `buffer_len` bytes from the reported offset and
returns `size`; (c) returns a `PayloadSizeMismatch` *only* in case (a); and
(d) the status phase itself never reads the radio buffer. -/
theorem C9_get_payload (env : Env) (d : DriverState) (buffer_len size offset : Nat)
    (s1 : RunState)
    (h : runSub sub_get_rx_buffer_status env d = (Except.ok (size, offset), s1)) :
    (buffer_len < size →
      runSub (sub_get_payload buffer_len) env d
        = (Except.error (RadioError.PayloadSizeMismatch size buffer_len), s1)) ∧
    (size ≤ buffer_len → env.busOk s1.steps = true →
      runSub (sub_get_payload buffer_len) env d
        = (Except.ok size,
            { s1 with
              trace := s1.trace ++ [Action.readBuffer offset buffer_len],
              steps := s1.steps + 1 })) ∧
    (∀ g c s', runSub (sub_get_payload buffer_len) env d
        = (Except.error (RadioError.PayloadSizeMismatch g c), s') →
      g = size ∧ c = buffer_len ∧ buffer_len < size) ∧
    (∀ off len, Action.readBuffer off len ∉ s1.trace) := by
  have hrun : runSub (sub_get_payload buffer_len) env d
      = if buffer_len < size then
          (Except.error (RadioError.PayloadSizeMismatch size buffer_len), s1)
        else if env.busOk s1.steps then
          (Except.ok size, { s1 with
            trace := s1.trace ++ [Action.readBuffer offset buffer_len],
            steps := s1.steps + 1 })
        else (Except.error RadioError.SPI, { s1 with steps := s1.steps + 1 }) := by
    unfold runSub at h ⊢
    by_cases hsz : buffer_len < size
    · simp [sub_get_payload, Bind.bind, instMonadM, h, throwM, brd_read_buffer,
        busAction, Pure.pure, Action.failError, hsz]
    · cases hb : env.busOk s1.steps
      · simp [sub_get_payload, Bind.bind, instMonadM, h, throwM, brd_read_buffer,
          busAction, Pure.pure, Action.failError, hsz, hb]
      · simp [sub_get_payload, Bind.bind, instMonadM, h, throwM, brd_read_buffer,
          busAction, Pure.pure, Action.failError, hsz, hb]
  refine ⟨?_, ?_, ?_, fun off len => sub_get_rx_buffer_status_trace env d _ s1 h off len⟩
  · intro hsz
    simp [hrun, hsz]
  · intro hsz hb
    simp [hrun, hb, Nat.not_lt.mpr hsz]
  · intro g c s' h'
    rw [hrun] at h'
    by_cases hsz : buffer_len < size
    · simp [hsz] at h'
      exact ⟨h'.1.1.symm, h'.1.2.symm, hsz⟩
    · cases hb : env.busOk s1.steps <;> simp [hsz, hb] at h'

/-- Witness for C9: status read reports size 5 at offset 3; a 10-byte caller
buffer accepts the payload and the radio buffer is read at offset 3. -/
theorem C9_get_payload_witness :
    5 ≤ 10 ∧
    runSub (sub_get_payload 10) envRx53 dPP
      = (Except.ok 5,
          { (runSub sub_get_rx_buffer_status envRx53 dPP).2 with
            trace := (runSub sub_get_rx_buffer_status envRx53 dPP).2.trace
              ++ [Action.readBuffer 3 10],
            steps := (runSub sub_get_rx_buffer_status envRx53 dPP).2.steps + 1 }) :=
  ⟨by decide,
    (C9_get_payload envRx53 dPP 10 5 3
      (runSub sub_get_rx_buffer_status envRx53 dPP).2 (by decide)).2.1
      (by decide) (by decide)⟩

end Sx126x


